import Mathlib

/-
  Verification of the financial-dashboard repository.

  The development shallowly embeds the two algorithmic cores of the app:

  1. The Retirement Projection Engine: the `calculate` closure of the
     RetirementCalc component, together with its derived component-scope
     values (`yearsToRetire`, `retireYear`, `insuranceCompoundingYears`).
     JavaScript floating-point numbers are embedded as exact rationals;
     JavaScript division by zero (which yields NaN) is embedded as the
     rational convention x / 0 = 0 - either way the result differs from
     any finite expected value, which is what the relevant claim tests.
     Ages and calendar years are embedded as integers, following the
     data model (ages are integer years); Math.pow is natural-number
     exponentiation after the Math.max(0, _) clamp.

  2. The Portfolio State Reconciler of the App component: the three
     persisted collections (watch-list symbols, holding quantities,
     analysis results), their load-time recovery, and the handlers
     handleAddSymbol / handleRemoveSymbol / handleQuantityChange /
     handleAnalyzePortfolio.  localStorage is embedded as a record of
     the three JSON keys, each either absent, present-but-unparseable
     (JSON.parse throws), or holding a parsed value.  JavaScript objects
     keyed by symbol are embedded as association lists.

  String operations mirror the JavaScript ones structurally:
  inputSymbol.split(/[, ]+/) is embedded as splitting on each single
  comma/space character (the regex collapses separator runs; the two
  differ only in empty tokens, which the immediately following
  length-positive filter removes, so the filtered token sequences
  coincide); String.prototype.trim / toUpperCase are embedded as
  structural trim / ASCII upper-casing over the character list.
-/

/-! ## Data model (types.ts) -/

/-- Recommendation field of a stock analysis (types.ts). -/
inductive Recommendation where
  | BUY : Recommendation
  | SELL : Recommendation
  | HOLD : Recommendation
deriving DecidableEq

/-- StockAnalysis record (types.ts).  Numeric JS fields are rationals. -/
structure StockAnalysis where
  symbol : String
  name : String
  marketCap : String
  high52Week : ℚ
  low52Week : ℚ
  currentPrice : ℚ
  suggestBuyPrice : ℚ
  suggestSellPrice : ℚ
  recommendation : Recommendation
  analysis : String
  projectedAnnualYield : String
  exampleScenario : String
deriving DecidableEq

/-- RetirementPlan record (types.ts).  Ages and the insurance completion
year are integer calendar quantities; monetary amounts and rates are
rationals. -/
structure RetirementPlan where
  currentAge : ℤ
  retirementAge : ℤ
  currentSavings : ℚ
  monthlySavings : ℚ
  targetMonthlyPension : ℚ
  expectedAnnualReturn : ℚ
  insurancePrincipal : ℚ
  insuranceRate : ℚ
  insuranceYearDone : ℤ
deriving DecidableEq

/-- RetirementResult record (types.ts). -/
structure RetirementResult where
  yearsToRetire : ℤ
  totalAccumulated : ℚ
  monthlyPensionPossible : ℚ
  isGoalReachable : Bool
  shortfall : ℚ
  advice : String
deriving DecidableEq

/-! ## Retirement Projection Engine (RetirementCalc component) -/

/-- Component-scope derived value: yearsToRetire = retirementAge - currentAge. -/
def yearsToRetire (p : RetirementPlan) : ℤ :=
  p.retirementAge - p.currentAge

/-- Component-scope derived value: retireYear = currentYear + yearsToRetire.
The wall-clock current year is an explicit parameter. -/
def retireYear (currentYear : ℤ) (p : RetirementPlan) : ℤ :=
  currentYear + yearsToRetire p

/-- Component-scope derived value:
insuranceCompoundingYears = Math.max(0, retireYear - plan.insuranceYearDone). -/
def insuranceCompoundingYears (currentYear : ℤ) (p : RetirementPlan) : ℤ :=
  max 0 (retireYear currentYear p - p.insuranceYearDone)

/-- monthlyRate = plan.expectedAnnualReturn / 100 / 12 (inside calculate). -/
def monthlyRate (p : RetirementPlan) : ℚ :=
  p.expectedAnnualReturn / 100 / 12

/-- months = yearsToRetire * 12 (inside calculate); a natural number once
the yearsToRetire > 0 guard has passed. -/
def monthsTo (p : RetirementPlan) : ℕ :=
  (yearsToRetire p * 12).toNat

/-- fvLumpSum = plan.currentSavings * Math.pow(1 + monthlyRate, months). -/
def fvLumpSum (p : RetirementPlan) : ℚ :=
  p.currentSavings * (1 + monthlyRate p) ^ monthsTo p

/-- fvMonthly = plan.monthlySavings * ((Math.pow(1 + monthlyRate, months) - 1)
/ monthlyRate).  The source has no special case for monthlyRate = 0: there
the JS expression is 0/0 = NaN, embedded here as the rational 0/0 = 0. -/
def fvMonthly (p : RetirementPlan) : ℚ :=
  p.monthlySavings * (((1 + monthlyRate p) ^ monthsTo p - 1) / monthlyRate p)

/-- fvInsurance = plan.insurancePrincipal
* Math.pow(1 + plan.insuranceRate / 100, insuranceCompoundingYears). -/
def fvInsurance (currentYear : ℤ) (p : RetirementPlan) : ℚ :=
  p.insurancePrincipal *
    (1 + p.insuranceRate / 100) ^ (insuranceCompoundingYears currentYear p).toNat

/-- The calculate closure of RetirementCalc.  Returns none exactly when the
yearsToRetire <= 0 guard fires (the JS function returns without producing a
result); otherwise the projection record.  The JS literal 0.04 is the exact
rational 4/100. -/
def calculate (currentYear : ℤ) (p : RetirementPlan) : Option RetirementResult :=
  if yearsToRetire p ≤ 0 then none
  else
    let totalAccumulated := fvLumpSum p + fvMonthly p + fvInsurance currentYear p
    let safeAnnualWithdrawal := totalAccumulated * (4 / 100)
    let monthlyPensionPossible := safeAnnualWithdrawal / 12
    let requiredTotal := p.targetMonthlyPension * 12 / (4 / 100)
    let shortfall := max 0 (requiredTotal - totalAccumulated)
    some
      { yearsToRetire := yearsToRetire p
        totalAccumulated := totalAccumulated
        monthlyPensionPossible := monthlyPensionPossible
        isGoalReachable := decide (p.targetMonthlyPension ≤ monthlyPensionPossible)
        shortfall := shortfall
        advice := "" }

/-- Effect of invoking calculate on the component's result state: the JS
function early-returns on the failed guard, leaving the previously stored
result (setResult is not called); otherwise it stores the new projection. -/
def applyCalculate (prev : Option RetirementResult) (currentYear : ℤ)
    (p : RetirementPlan) : Option RetirementResult :=
  match calculate currentYear p with
  | none => prev
  | some r => some r

/-- A concrete plan with expectedAnnualReturn = 0 (so monthlyRate = 0) and
one year to retirement; the failing input for the missing annuity special
case. -/
def zeroRatePlan : RetirementPlan :=
  { currentAge := 30
    retirementAge := 31
    currentSavings := 1000000
    monthlySavings := 20000
    targetMonthlyPension := 50000
    expectedAnnualReturn := 0
    insurancePrincipal := 200000
    insuranceRate := 5 / 2
    insuranceYearDone := 2022 }

/-- A concrete plan whose insurance completion year (2100) lies beyond the
retirement year, exercising the exponent clamp. -/
def lateInsurancePlan : RetirementPlan :=
  { currentAge := 30
    retirementAge := 65
    currentSavings := 1000000
    monthlySavings := 20000
    targetMonthlyPension := 50000
    expectedAnnualReturn := 6
    insurancePrincipal := 200000
    insuranceRate := 5 / 2
    insuranceYearDone := 2100 }

/-- A concrete plan already at retirement age (65 = 65): precondition not
met. -/
def retiredPlan : RetirementPlan :=
  { currentAge := 65
    retirementAge := 65
    currentSavings := 1000000
    monthlySavings := 20000
    targetMonthlyPension := 50000
    expectedAnnualReturn := 6
    insurancePrincipal := 200000
    insuranceRate := 5 / 2
    insuranceYearDone := 2022 }

/-- A concrete previously stored projection result. -/
def storedResult : RetirementResult :=
  { yearsToRetire := 35
    totalAccumulated := 123456
    monthlyPensionPossible := 411
    isGoalReachable := false
    shortfall := 0
    advice := "" }

/-! ## Persistent storage model (localStorage keys of the App component) -/

/-- Outcome of loading one localStorage key: the key is absent
(getItem returns null), present but JSON.parse throws, or present with a
parsed value. -/
inductive Loaded (α : Type) where
  | absent : Loaded α
  | corrupt : Loaded α
  | value : α → Loaded α
deriving DecidableEq

/-- The three persisted collections of the App component:
finance_portfolio_symbols, finance_stock_quantities, finance_portfolio_data.
A setItem write stores the JSON of the written value, so it is modelled as
storing Loaded.value of that value. -/
structure AppStorage where
  symbolsKey : Loaded (List String)
  quantitiesKey : Loaded (List (String × ℚ))
  dataKey : Loaded (List StockAnalysis)
deriving DecidableEq

/-- localStorage.setItem for finance_portfolio_symbols. -/
def writeSymbolsKey (st : AppStorage) (v : List String) : AppStorage :=
  { st with symbolsKey := Loaded.value v }

/-- localStorage.setItem for finance_stock_quantities. -/
def writeQuantitiesKey (st : AppStorage) (v : List (String × ℚ)) : AppStorage :=
  { st with quantitiesKey := Loaded.value v }

/-- localStorage.setItem for finance_portfolio_data. -/
def writeDataKey (st : AppStorage) (v : List StockAnalysis) : AppStorage :=
  { st with dataKey := Loaded.value v }

/-- useState initializer of stockQuantities: parse-or-default to the empty
mapping. -/
def initStockQuantities (st : AppStorage) : List (String × ℚ) :=
  match st.quantitiesKey with
  | Loaded.value q => q
  | _ => []

/-- Recovery step inside the mySymbols useState initializer, reached when
the parsed symbols list is empty: re-read finance_stock_quantities; if the
key is present, JSON.parse it (a throw lands in the initializer's catch,
which returns the empty list without writing); if the parsed mapping has at
least one key, the watch-list becomes Object.keys of the mapping and is
written back to storage immediately. -/
def recoverFromQuantities (st : AppStorage) : List String × AppStorage :=
  match st.quantitiesKey with
  | Loaded.absent => ([], st)
  | Loaded.corrupt => ([], st)
  | Loaded.value qtyMap =>
    let recoveredSymbols := qtyMap.map Prod.fst
    if 0 < recoveredSymbols.length then
      (recoveredSymbols, writeSymbolsKey st recoveredSymbols)
    else ([], st)

/-- useState initializer of mySymbols (the watch-list), including the
recovery mechanism.  A JSON.parse throw on the symbols key itself lands in
the catch, which returns the empty list immediately - the recovery branch
is never reached in that case. -/
def initMySymbols (st : AppStorage) : List String × AppStorage :=
  match st.symbolsKey with
  | Loaded.corrupt => ([], st)
  | Loaded.absent => recoverFromQuantities st
  | Loaded.value symbols =>
    if symbols.isEmpty then recoverFromQuantities st else (symbols, st)

/-! ## App component state and handlers -/

/-- The reconciler-relevant state of the App component. -/
structure AppState where
  mySymbols : List String
  stockQuantities : List (String × ℚ)
  portfolioStocks : List StockAnalysis
  errorMsg : Option String
  storage : AppStorage
deriving DecidableEq

/-- True if the character is one of the separators of the /[, ]+/ regex. -/
def isSymbolSep (c : Char) : Bool := c == ',' || c == ' '

/-- Structural split on single separator characters.  Runs of separators
produce empty tokens where the JS regex would collapse them; the caller's
length-positive filter removes exactly those, so the filtered results
agree. -/
def splitCharsAux (sep : Char → Bool) : List Char → List Char → List (List Char)
  | [], acc => [acc.reverse]
  | c :: cs, acc =>
    if sep c then acc.reverse :: splitCharsAux sep cs []
    else splitCharsAux sep cs (c :: acc)

/-- inputSymbol.split(/[, ]+/) (up to empty tokens, see splitCharsAux). -/
def splitSymbols (s : String) : List String :=
  (splitCharsAux isSymbolSep s.data []).map String.mk

/-- True on the whitespace characters removed by String.prototype.trim
(restricted to the ASCII ones that can occur in the inputs considered). -/
def isTrimmedWS (c : Char) : Bool := c == ' ' || c == '\t' || c == '\n' || c == '\r'

/-- s.trim(): drop whitespace from both ends of the character list. -/
def trimChars (l : List Char) : List Char :=
  ((l.dropWhile isTrimmedWS).reverse.dropWhile isTrimmedWS).reverse

/-- The per-token normalization of handleAddSymbol:
s.trim().toUpperCase(), then the client-side quick fix mapping the token
"304" to "3042". -/
def normalizeSymbol (s : String) : String :=
  let cleanS := String.mk ((trimChars s.data).map Char.toUpper)
  if cleanS = "304" then "3042" else cleanS

/-- handleAddSymbol, as a function of the raw input and the current
watch-list, returning the updated watch-list and the sequence of symbols
actually appended.  The JS guard if (inputSymbol) skips falsy (empty)
input; the JS guard on uniqueNewSymbols.length skips the state update when
nothing new survived (the watch-list is then unchanged).  On a non-empty
appended sequence the updated list is also written to storage immediately
(storage is threaded by the callers that need it). -/
def handleAddSymbol (inputSymbol : String) (mySymbols : List String) :
    List String × List String :=
  if inputSymbol = "" then (mySymbols, [])
  else
    let newSymbols := ((splitSymbols inputSymbol).map normalizeSymbol).filter
      (fun s => 0 < s.length)
    let uniqueNewSymbols := newSymbols.filter (fun s => !(mySymbols.contains s))
    if 0 < uniqueNewSymbols.length then
      (mySymbols ++ uniqueNewSymbols, uniqueNewSymbols)
    else (mySymbols, [])

/-- The addSymbols contract as the specification states it: split the raw
input on comma/space separators, trim and upper-case each token, apply the
fixed symbol-correction table before dedup, discard empty tokens, discard
tokens already present in the watch-list, append the survivors preserving
input order, and return the appended sequence (empty when nothing new
survives). -/
def addSymbolsSpec (rawInput : String) (watchList : List String) :
    List String × List String :=
  let tokens := (splitSymbols rawInput).map normalizeSymbol
  let survivors := (tokens.filter (fun s => 0 < s.length)).filter
    (fun s => !(watchList.contains s))
  (watchList ++ survivors, survivors)

/-- handleRemoveSymbol: filter the symbol out of the watch-list and out of
the analysis collection, write both to storage immediately; the holding
quantities are not touched. -/
def handleRemoveSymbol (st : AppState) (symbolToRemove : String) : AppState :=
  let updatedList := st.mySymbols.filter (fun s => s ≠ symbolToRemove)
  let updatedData := st.portfolioStocks.filter (fun s => s.symbol ≠ symbolToRemove)
  { st with
    mySymbols := updatedList
    portfolioStocks := updatedData
    storage := writeDataKey (writeSymbolsKey st.storage updatedList) updatedData }

/-- The object-spread update of handleQuantityChange,
updated = spread of prev with symbol mapped to qty: an existing key keeps
its position with the value overwritten, a new key is appended. -/
def upsertQuantity : List (String × ℚ) → String → ℚ → List (String × ℚ)
  | [], symbol, qty => [(symbol, qty)]
  | (k, v) :: rest, symbol, qty =>
    if k = symbol then (k, qty) :: rest
    else (k, v) :: upsertQuantity rest symbol qty

/-- Lookup of stockQuantities[symbol] as an association-list find. -/
def lookupQuantity (m : List (String × ℚ)) (symbol : String) : Option ℚ :=
  (m.find? (fun kv => kv.1 == symbol)).map Prod.snd

/-- handleQuantityChange(symbol, qty): upsert with no validation of qty,
immediate setItem of the updated mapping. -/
def handleQuantityChange (st : AppState) (symbol : String) (qty : ℚ) : AppState :=
  let updated := upsertQuantity st.stockQuantities symbol qty
  { st with
    stockQuantities := updated
    storage := writeQuantitiesKey st.storage updated }

/-- extractJson of geminiService: the chain of JSON.parse attempts on the
response text (code-block match, array match, whole text) is modelled by
its combined outcome - some parsed value, or none when every attempt
throws; the catch branch then returns the empty array instead of
propagating an error. -/
def extractJson (parseOutcome : Option (List StockAnalysis)) : List StockAnalysis :=
  match parseOutcome with
  | some v => v
  | none => []

/-- Outcome of the awaited analyzePortfolio call: the request threw
(credential missing, network failure), or a response text arrived whose
JSON extraction had the given outcome. -/
inductive AnalyzeOutcome where
  | thrown : AnalyzeOutcome
  | responded : Option (List StockAnalysis) → AnalyzeOutcome
deriving DecidableEq

/-- The user-facing message handleAnalyzePortfolio shows on a caught
error. -/
def analyzeErrorMsg : String := "分析失敗。請確認您的 API 金鑰是否正確。"

/-- handleAnalyzePortfolio: early return on an empty watch-list; otherwise
clear the error message and await analyzePortfolio.  If the call throws,
the catch sets the error message and nothing else changes.  If it returns
(including the extractJson fallback value for a malformed response), the
returned list replaces portfolioStocks wholesale and is written to storage
immediately. -/
def handleAnalyzePortfolio (st : AppState) (outcome : AnalyzeOutcome) : AppState :=
  if st.mySymbols.length = 0 then st
  else
    match outcome with
    | AnalyzeOutcome.thrown => { st with errorMsg := some analyzeErrorMsg }
    | AnalyzeOutcome.responded parseOutcome =>
      let data := extractJson parseOutcome
      { st with
        errorMsg := none
        portfolioStocks := data
        storage := writeDataKey st.storage data }

/-- The symbols present in the analysis collection
(portfolioStocks.map(s => s.symbol)). -/
def analyzedSymbols (st : AppState) : List String :=
  st.portfolioStocks.map (fun s => s.symbol)

/-- The pending symbols: watch-list members with no analysis entry (the
per-symbol predicate of hasPendingSymbols). -/
def pendingSymbols (st : AppState) : List String :=
  st.mySymbols.filter (fun s => !((analyzedSymbols st).contains s))

/-- hasPendingSymbols (the useMemo flag): false on an empty watch-list,
true on a non-empty watch-list with an empty analysis collection, else
true iff some watch-list symbol lacks an analysis entry. -/
def hasPendingSymbols (st : AppState) : Bool :=
  if st.mySymbols.length = 0 then false
  else if st.portfolioStocks.length = 0 then true
  else st.mySymbols.any (fun s => !((analyzedSymbols st).contains s))

/-! ## Cash / portfolio synchronization (RetirementCalc component) -/

/-- portfolioTotalValue: sum over the analysis entries of
stock.currentPrice * (stockQuantities[stock.symbol] or 0). -/
def portfolioTotalValue (stocks : List StockAnalysis)
    (quantities : List (String × ℚ)) : ℚ :=
  stocks.foldl (fun sum stock =>
    sum + stock.currentPrice * ((lookupQuantity quantities stock.symbol).getD 0)) 0

/-- The RetirementCalc state relevant to the currentSavings invariant:
plan.currentSavings, the cashSavings state, and the inputs of the derived
portfolio value. -/
structure CalcState where
  currentSavings : ℚ
  cashSavings : ℚ
  portfolioStocks : List StockAnalysis
  stockQuantities : List (String × ℚ)
deriving DecidableEq

/-- The derived portfolio market value of a CalcState. -/
def CalcState.portfolioValue (s : CalcState) : ℚ :=
  portfolioTotalValue s.portfolioStocks s.stockQuantities

/-- The sync effect on [cashSavings, portfolioTotalValue]: when
plan.currentSavings differs from cashSavings + portfolioTotalValue, it is
overwritten with that total. -/
def syncPlan (s : CalcState) : CalcState :=
  let totalInvestableAssets := s.cashSavings + s.portfolioValue
  if s.currentSavings ≠ totalInvestableAssets then
    { s with currentSavings := totalInvestableAssets }
  else s

/-- The mount-only effect: cashSavings is set to
Math.max(0, plan.currentSavings - portfolioTotalValue). -/
def initialSplit (s : CalcState) : CalcState :=
  { s with cashSavings := max 0 (s.currentSavings - s.portfolioValue) }

/-- The changes that feed the sync effect: a user edit of the cash input,
or a change of the analysis collection or of the holding quantities (which
change the derived portfolio value). -/
inductive CalcEvent where
  | setCash : ℚ → CalcEvent
  | setStocks : List StockAnalysis → CalcEvent
  | setQuantities : List (String × ℚ) → CalcEvent

/-- Apply one change; the sync effect runs after it (its dependency array
lists cashSavings and portfolioTotalValue). -/
def applyCalcEvent (s : CalcState) (e : CalcEvent) : CalcState :=
  syncPlan (match e with
    | CalcEvent.setCash v => { s with cashSavings := v }
    | CalcEvent.setStocks l => { s with portfolioStocks := l }
    | CalcEvent.setQuantities q => { s with stockQuantities := q })

/-- Mount (initial split followed by the sync effect, which also runs on
mount) and then any sequence of subsequent changes. -/
def mountAndRun (s : CalcState) (es : List CalcEvent) : CalcState :=
  es.foldl applyCalcEvent (syncPlan (initialSplit s))

/-- The cross-collection invariant of the CashSavings model:
plan.currentSavings = cashSavings + portfolio market value. -/
def savingsInvariant (s : CalcState) : Prop :=
  s.currentSavings = s.cashSavings + s.portfolioValue

/-! ## Concrete example states -/

/-- A concrete cached analysis entry for symbol 2330. -/
def sampleAnalysis : StockAnalysis :=
  { symbol := "2330"
    name := "台積電"
    marketCap := "20兆"
    high52Week := 1100
    low52Week := 700
    currentPrice := 1000
    suggestBuyPrice := 900
    suggestSellPrice := 1100
    recommendation := Recommendation.HOLD
    analysis := "範例"
    projectedAnnualYield := "2%"
    exampleScenario := "範例" }

/-- A concrete storage with an unparseable watch-list key and a parsed
holding-quantities mapping with the single key 2330. -/
def corruptSymbolsStorage : AppStorage :=
  { symbolsKey := Loaded.corrupt
    quantitiesKey := Loaded.value [("2330", 100)]
    dataKey := Loaded.absent }

/-- A concrete storage with an absent watch-list key and a parsed
holding-quantities mapping with the single key 2330. -/
def absentSymbolsStorage : AppStorage :=
  { symbolsKey := Loaded.absent
    quantitiesKey := Loaded.value [("2330", 100)]
    dataKey := Loaded.absent }

/-- A concrete app state holding one watch-list symbol, one holding
quantity, and one previously fetched analysis entry. -/
def exampleAppState : AppState :=
  { mySymbols := ["2330"]
    stockQuantities := [("2330", 100)]
    portfolioStocks := [sampleAnalysis]
    errorMsg := none
    storage :=
      { symbolsKey := Loaded.value ["2330"]
        quantitiesKey := Loaded.value [("2330", 100)]
        dataKey := Loaded.value [sampleAnalysis] } }

/-! ## Helper lemmas -/

/-- The sync effect always establishes the currentSavings invariant. -/
theorem syncPlan_invariant (s : CalcState) : savingsInvariant (syncPlan s) := by
  unfold syncPlan savingsInvariant
  dsimp only
  split
  · rfl
  · rename_i h
    exact not_not.mp h

/-- Folding any event sequence over an invariant state keeps the
invariant, because every event is followed by the sync effect. -/
theorem foldl_applyCalcEvent_invariant (es : List CalcEvent) (t : CalcState)
    (h : savingsInvariant t) : savingsInvariant (es.foldl applyCalcEvent t) := by
  induction es generalizing t with
  | nil => exact h
  | cons e es ih =>
    exact ih _ (by unfold applyCalcEvent; exact syncPlan_invariant _)

/-- Upserting a quantity makes the upserted symbol map to the new value. -/
theorem lookup_upsert_self (m : List (String × ℚ)) (symbol : String) (qty : ℚ) :
    lookupQuantity (upsertQuantity m symbol qty) symbol = some qty := by
  induction m with
  | nil => simp [upsertQuantity, lookupQuantity, List.find?]
  | cons kv rest ih =>
    obtain ⟨k, v⟩ := kv
    by_cases hk : k = symbol
    · subst hk
      simp [upsertQuantity, lookupQuantity, List.find?]
    · have hb : (k == symbol) = false := by simpa using hk
      simp only [upsertQuantity, if_neg hk, lookupQuantity, List.find?, hb]
      exact ih

/-- Upserting a quantity leaves every other symbol's binding unchanged. -/
theorem lookup_upsert_other (m : List (String × ℚ)) (symbol other : String)
    (qty : ℚ) (hne : other ≠ symbol) :
    lookupQuantity (upsertQuantity m symbol qty) other =
      lookupQuantity m other := by
  induction m with
  | nil =>
    have hb : (symbol == other) = false := by simpa using (Ne.symm hne)
    simp [upsertQuantity, lookupQuantity, List.find?, hb]
  | cons kv rest ih =>
    obtain ⟨k, v⟩ := kv
    by_cases hk : k = symbol
    · subst hk
      have hb : (k == other) = false := by simpa using (Ne.symm hne)
      simp [upsertQuantity, lookupQuantity, List.find?, hb]
    · by_cases hko : k = other
      · subst hko
        simp [upsertQuantity, if_neg hk, lookupQuantity, List.find?]
      · have hb : (k == other) = false := by simpa using hko
        simp only [upsertQuantity, if_neg hk, lookupQuantity, List.find?, hb]
        exact ih

/-! ## Claim theorems -/

/-- Claim C1 (code bug, evaluated at the failing input): for the plan with
expectedAnnualReturn = 0 the code's annuity term fvMonthly is the
division-by-zero value (NaN in JavaScript, 0 in the rational embedding of
its 0/0), not the limiting value monthlySavings * months = 240000 that the
specification mandates; the source has no special case for
monthlyRate = 0. -/
theorem c1_annuity_zero_rate_bug :
    monthlyRate zeroRatePlan = 0 ∧
    monthsTo zeroRatePlan = 12 ∧
    fvMonthly zeroRatePlan = 0 ∧
    zeroRatePlan.monthlySavings * ((monthsTo zeroRatePlan : ℚ)) = 240000 ∧
    fvMonthly zeroRatePlan ≠
      zeroRatePlan.monthlySavings * ((monthsTo zeroRatePlan : ℚ)) := by
  have h1 : monthlyRate zeroRatePlan = 0 := by
    simp [monthlyRate, zeroRatePlan]
  have h2 : monthsTo zeroRatePlan = 12 := by decide
  have h3 : fvMonthly zeroRatePlan = 0 := by
    simp [fvMonthly, h1]
  have h4 : zeroRatePlan.monthlySavings * ((monthsTo zeroRatePlan : ℚ)) = 240000 := by
    rw [h2]
    norm_num [zeroRatePlan]
  exact ⟨h1, h2, h3, h4, by rw [h3, h4]; norm_num⟩

/-- Claim C2 (counterexample): with a present-but-unparseable watch-list
key (the claim's "fallen back to empty on parse failure" case) and a
parsed, non-empty holding-quantities mapping with key 2330, initialization
returns the empty watch-list, does not rebuild it from the quantity keys,
and writes nothing back to storage. -/
theorem c2_parse_failure_skips_recovery :
    initStockQuantities corruptSymbolsStorage = [("2330", 100)] ∧
    (initMySymbols corruptSymbolsStorage).1 = [] ∧
    "2330" ∉ (initMySymbols corruptSymbolsStorage).1 ∧
    (initMySymbols corruptSymbolsStorage).2 = corruptSymbolsStorage :=
  ⟨rfl, rfl, by decide, rfl⟩

/-- Claim C2 (amended): when the watch-list key is absent or parses to the
empty list and the holding-quantities key parses to a non-empty mapping,
initialization returns exactly the key list of that mapping and writes it
back to the watch-list key immediately. -/
theorem c2_recovery_rebuilds_watch_list (st : AppStorage)
    (q : List (String × ℚ))
    (hsym : st.symbolsKey = Loaded.absent ∨ st.symbolsKey = Loaded.value [])
    (hq : st.quantitiesKey = Loaded.value q) (hne : q ≠ []) :
    (initMySymbols st).1 = q.map Prod.fst ∧
    (initMySymbols st).2.symbolsKey = Loaded.value (q.map Prod.fst) := by
  have hlen : 0 < (q.map Prod.fst).length := by
    simpa using List.length_pos.mpr hne
  have hrec : recoverFromQuantities st =
      (q.map Prod.fst, writeSymbolsKey st (q.map Prod.fst)) := by
    simp [recoverFromQuantities, hq, hlen, hne]
  rcases hsym with h | h
  · simp [initMySymbols, h, hrec, writeSymbolsKey]
  · simp [initMySymbols, h, hrec, writeSymbolsKey]

/-- Witness for claim C2's amended theorem: the spec's own recovery
scenario, quantities mapping with the single key 2330 and an absent
watch-list key, yields the watch-list containing exactly 2330, written
back to storage. -/
theorem c2_recovery_witness :
    (initMySymbols absentSymbolsStorage).1 = ["2330"] ∧
    (initMySymbols absentSymbolsStorage).2.symbolsKey = Loaded.value ["2330"] :=
  c2_recovery_rebuilds_watch_list absentSymbolsStorage [("2330", 100)]
    (Or.inl rfl) rfl (by decide)

/-- Claim C3 (counterexample): a malformed, unparseable analysis response
does not surface an error and does not leave the analysis collection
unchanged: extractJson falls back to the empty list, which replaces the
previously stored snapshot wholesale and is persisted, with no user-facing
error message. -/
theorem c3_malformed_response_wipes_analysis :
    exampleAppState.portfolioStocks ≠ [] ∧
    (handleAnalyzePortfolio exampleAppState
      (AnalyzeOutcome.responded none)).portfolioStocks = [] ∧
    (handleAnalyzePortfolio exampleAppState
      (AnalyzeOutcome.responded none)).errorMsg = none ∧
    (handleAnalyzePortfolio exampleAppState
      (AnalyzeOutcome.responded none)).storage.dataKey = Loaded.value [] :=
  ⟨by decide, rfl, rfl, rfl⟩

/-- Claim C3 (amended): for failures of the external analysis request that
raise an error (credential missing, network failure), the operation
surfaces the user-facing error message and leaves the watch-list, the
holding quantities, the stored analysis collection, and all persisted keys
unchanged; the watch-list and holding quantities are also untouched by a
malformed response, but the analysis collection is then replaced by the
empty extractJson fallback with no error surfaced. -/
theorem c3_failure_handling (st : AppState) (h : st.mySymbols ≠ []) :
    (handleAnalyzePortfolio st AnalyzeOutcome.thrown).mySymbols = st.mySymbols ∧
    (handleAnalyzePortfolio st AnalyzeOutcome.thrown).stockQuantities =
      st.stockQuantities ∧
    (handleAnalyzePortfolio st AnalyzeOutcome.thrown).portfolioStocks =
      st.portfolioStocks ∧
    (handleAnalyzePortfolio st AnalyzeOutcome.thrown).storage = st.storage ∧
    (handleAnalyzePortfolio st AnalyzeOutcome.thrown).errorMsg =
      some analyzeErrorMsg ∧
    (handleAnalyzePortfolio st (AnalyzeOutcome.responded none)).mySymbols =
      st.mySymbols ∧
    (handleAnalyzePortfolio st (AnalyzeOutcome.responded none)).stockQuantities =
      st.stockQuantities ∧
    (handleAnalyzePortfolio st (AnalyzeOutcome.responded none)).portfolioStocks =
      [] ∧
    (handleAnalyzePortfolio st (AnalyzeOutcome.responded none)).errorMsg = none := by
  have hlen : ¬ st.mySymbols.length = 0 := by
    simpa [List.length_eq_zero] using h
  simp [handleAnalyzePortfolio, hlen, extractJson]

/-- Witness for claim C3's amended theorem at a concrete state with one
watch-list symbol and one stored analysis entry. -/
theorem c3_failure_witness :
    exampleAppState.mySymbols ≠ [] ∧
    (handleAnalyzePortfolio exampleAppState AnalyzeOutcome.thrown).errorMsg =
      some analyzeErrorMsg ∧
    (handleAnalyzePortfolio exampleAppState AnalyzeOutcome.thrown).portfolioStocks =
      exampleAppState.portfolioStocks :=
  ⟨by decide,
   (c3_failure_handling exampleAppState (by decide)).2.2.2.2.1,
   (c3_failure_handling exampleAppState (by decide)).2.2.1⟩

/-- Claim C4 (counterexample): the negative quantity -5 for symbol 2330 is
not rejected: the holding-quantities collection is mutated to hold -5 and
the mutated mapping is written to persistent storage immediately. -/
theorem c4_negative_quantity_accepted :
    lookupQuantity
      (handleQuantityChange exampleAppState "2330" (-5)).stockQuantities
      "2330" = some (-5) ∧
    (handleQuantityChange exampleAppState "2330" (-5)).stockQuantities ≠
      exampleAppState.stockQuantities ∧
    (handleQuantityChange exampleAppState "2330" (-5)).storage.quantitiesKey =
      Loaded.value [("2330", -5)] ∧
    (handleQuantityChange exampleAppState "2330" (-5)).storage.quantitiesKey ≠
      exampleAppState.storage.quantitiesKey :=
  ⟨rfl, by decide, rfl, by decide⟩

/-- Claim C4 (amended): setQuantity performs no validation: for every
quantity, negative included, it upserts the quantity for the given symbol,
leaves every other symbol's binding unchanged, and persists the updated
mapping immediately. -/
theorem c4_set_quantity_no_validation (st : AppState) (symbol : String)
    (qty : ℚ) :
    lookupQuantity (handleQuantityChange st symbol qty).stockQuantities symbol =
      some qty ∧
    (handleQuantityChange st symbol qty).storage.quantitiesKey =
      Loaded.value (handleQuantityChange st symbol qty).stockQuantities ∧
    ∀ other, other ≠ symbol →
      lookupQuantity (handleQuantityChange st symbol qty).stockQuantities other =
        lookupQuantity st.stockQuantities other :=
  ⟨lookup_upsert_self _ _ _, rfl,
   fun _ h => lookup_upsert_other _ _ _ _ h⟩

/-- Witness for claim C4's amended theorem: upserting -5 for 2330 stores
-5 for 2330 and leaves the absent binding of 0050 absent. -/
theorem c4_set_quantity_witness :
    lookupQuantity
      (handleQuantityChange exampleAppState "2330" (-5)).stockQuantities
      "2330" = some (-5) ∧
    ("0050" : String) ≠ "2330" ∧
    lookupQuantity
      (handleQuantityChange exampleAppState "2330" (-5)).stockQuantities
      "0050" = lookupQuantity exampleAppState.stockQuantities "0050" :=
  ⟨(c4_set_quantity_no_validation exampleAppState "2330" (-5)).1,
   by decide,
   (c4_set_quantity_no_validation exampleAppState "2330" (-5)).2.2 "0050"
     (by decide)⟩

/-- Claim C5 (code bug, evaluated at the failing input): the raw input
repeating the token 2330, added to the duplicate-free empty watch-list,
appends the symbol twice: deduplication is only performed against the
existing watch-list, not within the input batch, so the resulting
watch-list violates the duplicates-forbidden invariant. -/
theorem c5_duplicate_tokens_bug :
    ([] : List String).Nodup ∧
    (handleAddSymbol "2330, 2330" []).1 = ["2330", "2330"] ∧
    ¬ (handleAddSymbol "2330, 2330" []).1.Nodup := by
  refine ⟨List.nodup_nil, by decide, by decide⟩

/-- Claim C6: after the one-time initial split (cash set to
max(0, persisted currentSavings - portfolio market value)) and the sync
effect, the invariant plan.currentSavings = cashSavings + portfolio market
value holds after every subsequent change to the cash amount, to the
analysis collection, or to the holding quantities, where the portfolio
market value sums currentPrice times the symbol's holding quantity with
missing quantities contributing 0. -/
theorem c6_savings_invariant_holds (s : CalcState) (es : List CalcEvent) :
    savingsInvariant (mountAndRun s es) := by
  unfold mountAndRun
  exact foldl_applyCalcEvent_invariant es _ (syncPlan_invariant _)

/-- Claim C7: handleAddSymbol coincides, for every raw input string and
every starting watch-list, with the specification's addSymbols contract:
split on comma/space separators, trim and upper-case each token, map the
token 304 to its corrected code 3042 before deduplication, discard empty
tokens and tokens already present in the watch-list, append the survivors
preserving input order, with an empty appended sequence when nothing new
survives. -/
theorem c7_add_symbols_matches_spec (rawInput : String) (watchList : List String) :
    handleAddSymbol rawInput watchList = addSymbolsSpec rawInput watchList := by
  by_cases h : rawInput = ""
  · subst h
    have hs : ((splitSymbols "").map normalizeSymbol).filter
        (fun s => 0 < s.length) = [] := rfl
    simp [handleAddSymbol, addSymbolsSpec, hs]
  · simp only [handleAddSymbol, addSymbolsSpec, if_neg h]
    by_cases hlen : 0 < ((((splitSymbols rawInput).map normalizeSymbol).filter
        (fun s => 0 < s.length)).filter (fun s => !(watchList.contains s))).length
    · rw [if_pos hlen]
    · rw [if_neg hlen]
      have hnil : (((splitSymbols rawInput).map normalizeSymbol).filter
          (fun s => 0 < s.length)).filter (fun s => !(watchList.contains s)) = [] :=
        List.length_eq_zero.mp (by omega)
      rw [hnil]
      simp

/-- Claim C8: handleRemoveSymbol removes the symbol from the watch-list
and removes every cached analysis entry for it, leaves the
holding-quantities collection (state and persisted key) exactly unchanged,
and afterwards the symbol is never a pending symbol. -/
theorem c8_remove_symbol_effects (st : AppState) (symbolToRemove : String) :
    symbolToRemove ∉ (handleRemoveSymbol st symbolToRemove).mySymbols ∧
    symbolToRemove ∉ analyzedSymbols (handleRemoveSymbol st symbolToRemove) ∧
    (handleRemoveSymbol st symbolToRemove).stockQuantities =
      st.stockQuantities ∧
    (handleRemoveSymbol st symbolToRemove).storage.quantitiesKey =
      st.storage.quantitiesKey ∧
    symbolToRemove ∉ pendingSymbols (handleRemoveSymbol st symbolToRemove) := by
  have h1 : symbolToRemove ∉ (handleRemoveSymbol st symbolToRemove).mySymbols := by
    simp [handleRemoveSymbol, List.mem_filter]
  refine ⟨h1, ?_, rfl, rfl, ?_⟩
  · simp [handleRemoveSymbol, analyzedSymbols, List.mem_map, List.mem_filter]
  · intro hmem
    exact h1 (List.mem_of_mem_filter hmem)

/-- Claim C9: the insurance term of the projection equals
insurancePrincipal * (1 + insuranceRate/100)^years compounded annually
over years = max(0, retireYear - insuranceYearDone) with
retireYear = currentYear + (retirementAge - currentAge); when
insuranceYearDone exceeds retireYear the exponent clamps to 0 and the
insurance future value is exactly the principal. -/
theorem c9_insurance_future_value (currentYear : ℤ) (p : RetirementPlan) :
    fvInsurance currentYear p = p.insurancePrincipal *
      (1 + p.insuranceRate / 100) ^
        (max 0 (currentYear + (p.retirementAge - p.currentAge) -
          p.insuranceYearDone)).toNat ∧
    (retireYear currentYear p < p.insuranceYearDone →
      fvInsurance currentYear p = p.insurancePrincipal) := by
  constructor
  · rfl
  · intro h
    have hx : retireYear currentYear p - p.insuranceYearDone ≤ 0 := by omega
    have h0 : insuranceCompoundingYears currentYear p = 0 := by
      simp [insuranceCompoundingYears, max_eq_left hx]
    simp [fvInsurance, h0]

/-- Witness for claim C9 at the concrete plan whose insurance completion
year 2100 lies beyond the retirement year 2060: the exponent clamps and
the insurance future value equals the principal. -/
theorem c9_insurance_clamp_witness :
    retireYear 2025 lateInsurancePlan < lateInsurancePlan.insuranceYearDone ∧
    fvInsurance 2025 lateInsurancePlan = lateInsurancePlan.insurancePrincipal :=
  ⟨by decide, (c9_insurance_future_value 2025 lateInsurancePlan).2 (by decide)⟩

/-- Claim C10: for every plan with retirementAge at most currentAge,
calculate produces no result (the guard returns none, a normal state
rather than an exception) and the previously stored projection result is
left unchanged by the invocation. -/
theorem c10_precondition_not_met (currentYear : ℤ) (p : RetirementPlan)
    (prev : Option RetirementResult) (h : p.retirementAge ≤ p.currentAge) :
    calculate currentYear p = none ∧
    applyCalculate prev currentYear p = prev := by
  have hy : yearsToRetire p ≤ 0 := by unfold yearsToRetire; omega
  have hc : calculate currentYear p = none := by simp [calculate, hy]
  exact ⟨hc, by simp [applyCalculate, hc]⟩

/-- Witness for claim C10 at the concrete plan with currentAge =
retirementAge = 65: no projection is produced and the stored result
survives. -/
theorem c10_precondition_witness :
    retiredPlan.retirementAge ≤ retiredPlan.currentAge ∧
    calculate 2025 retiredPlan = none ∧
    applyCalculate (some storedResult) 2025 retiredPlan = some storedResult :=
  ⟨by decide, c10_precondition_not_met 2025 retiredPlan (some storedResult)
    (by decide)⟩
